import Mathlib

/-!
Shallow embedding of the catenary core of this repository
(`src/utils/catenary.js`, function `createTransmissionLine` and the closures
it contains) and proofs about it.

Modelling conventions, stated once here:

* JavaScript numbers are modelled as exact rationals.  Decimal literals of the
  source (`0.1`, `1e-6`, ...) are the corresponding exact rationals.
* The transcendental library functions consumed by the code (`Math.hypot`
  via square root, `Math.cosh`, `Math.sinh`) are supplied by an explicit
  environment `Env` of rational-valued functions; theorems quantified over
  every `Env` hold in particular for the real library functions.
* The Cesium east-north-up frame conversion (lines 18-23 of the source) is
  external library code and, per the architecture, the two endpoints are
  already expressed in a common local tangent frame; the frame maps are
  therefore modelled as the identity, so the local points `p0`, `p1` are the
  inputs themselves and sampled local points are returned directly.
* The only non-finite value the algorithm itself manufactures is the
  `Number.POSITIVE_INFINITY` sentinel stored by `lengthResidual` and by the
  sag-mode objective when an inner solve fails; it is modelled as `none` in
  `Option`-valued residuals, and the source's comparisons involving it
  (`>`, `<`, `*  > 0`, `Math.abs`, `isFinite`) are mirrored field by field.
  Overflow of `cosh` itself is not represented: environment functions are
  total, so `isFinite` holds of every plain number.
* Every translated function returns, next to its value, the number of calls
  it makes to the environment functions (a plain writer-style second
  component that never influences control flow); this makes the bounded-work
  property of the solver a provable statement.
-/

namespace CatenaryModel

/-- Local 3D point, mirroring the Cesium `Cartesian3` values the source
manipulates (in the identity local frame). -/
structure Cartesian3 where
  x : ℚ
  y : ℚ
  z : ℚ
deriving DecidableEq, Repr

/-- Environment of numeric library functions the source calls:
`Math.hypot` is `sqrt` of the sum of squares, plus `Math.cosh`, `Math.sinh`. -/
structure Env where
  sqrt : ℚ → ℚ
  cosh : ℚ → ℚ
  sinh : ℚ → ℚ

/-- The `options` object of `createTransmissionLine`; absent fields are
`none` and the source applies its defaults with `??`. -/
structure LineOptions where
  numPoints : Option ℕ := none
  sagRatio : Option ℚ := none
  lengthMeters : Option ℚ := none
  linearWeight : Option ℚ := none
  hTension : Option ℚ := none
  mode : Option String := none

/-- The metadata record the source attaches to the returned positions array
(`positions.metadata = { a, sag, hTension, linearWeight }`, lines 74-79). -/
structure Metadata where
  a : ℚ
  sag : ℚ
  hTension : ℚ
  linearWeight : ℚ
deriving DecidableEq, Repr

/-- A returned sample set: the positions array plus its optional attached
metadata (a JS array property, so possibly absent). -/
structure SampleSet where
  points : List Cartesian3
  metadata : Option Metadata
deriving DecidableEq, Repr

/-- The values computed once per call at lines 11-36 of the source and
captured by every inner closure.  `mode` and `lengthMeters` are kept out of
this record because they are consulted only by the top-level dispatch. -/
structure Ctx where
  numPoints : ℕ
  sagRatio : ℚ
  linearWeight : ℚ
  hTension : ℚ
  p0 : Cartesian3
  dx : ℚ
  dy : ℚ
  L : ℚ
  dirX : ℚ
  dirY : ℚ
  z0 : ℚ
  z1 : ℚ
  dz : ℚ
  chordLen : ℚ
deriving Repr

/-- Lines 11-36: defaults, local frame reduction and the 2D profile.
`L` is `Math.hypot(dx, dy)` and `chordLen` is `Math.hypot(L, dz)`. -/
def mkCtx (env : Env) (startPos endPos : Cartesian3) (options : LineOptions) : Ctx :=
  let dx := endPos.x - startPos.x
  let dy := endPos.y - startPos.y
  let L := env.sqrt (dx * dx + dy * dy)
  let z0 := startPos.z
  let z1 := endPos.z
  let dz := z1 - z0
  { numPoints := options.numPoints.getD 64
    sagRatio := options.sagRatio.getD 0.06
    linearWeight := options.linearWeight.getD 30
    hTension := options.hTension.getD 15000
    p0 := startPos
    dx := dx
    dy := dy
    L := L
    dirX := dx / L
    dirY := dy / L
    z0 := z0
    z1 := z1
    dz := dz
    chordLen := env.sqrt (L * L + dz * dz) }

/-- Residual values of the outer searches: `some q` is an ordinary finite
number, `none` is the `Number.POSITIVE_INFINITY` sentinel returned when an
inner solve fails. -/
abbrev Res := Option ℚ

/-- JS `v > 0` where `v` may be the positive-infinity sentinel. -/
def resPos : Res → Bool
  | none => true
  | some v => decide (0 < v)

/-- JS `v < 0` where `v` may be the positive-infinity sentinel. -/
def resNeg : Res → Bool
  | none => false
  | some v => decide (v < 0)

/-- JS `v1 * v2 > 0` where either factor may be the sentinel
(`inf * inf = inf > 0`; `inf * w` has the sign of `w`; `inf * 0` is `NaN`,
which compares false). -/
def mulPosRes : Res → Res → Bool
  | none, none => true
  | none, some w => decide (0 < w)
  | some v, none => decide (0 < v)
  | some v, some w => decide (0 < v * w)

/-- JS `v1 * v2 < 0` where either factor may be the sentinel. -/
def mulNegRes : Res → Res → Bool
  | none, none => false
  | none, some w => decide (w < 0)
  | some v, none => decide (v < 0)
  | some v, some w => decide (v * w < 0)

/-- JS `Math.abs(v1) < Math.abs(v2)` where either side may be the sentinel
(`|inf|` is `inf`, and `inf < inf` is false). -/
def absLtRes : Res → Res → Bool
  | none, _ => false
  | some _, none => true
  | some v, some w => decide (|v| < |w|)

/-- JS `Math.abs(f) < tol` where `f` may be the sentinel. -/
def absLtTol : Res → ℚ → Bool
  | none, _ => false
  | some v, t => decide (|v| < t)

/-- The source's `hasBracket` helper (lines 195-203): a sign change, where a
positive-infinity residual on one side brackets against a negative value on
the other. -/
def hasBracket : Res → Res → Bool
  | none, none => false
  | none, some w => decide (w < 0)
  | some v, none => decide (v < 0)
  | some v, some w => decide (v * w < 0)

/-- Generic capped loop: run `body` while `stop` is false, at most `n`
times, accumulating the environment-call counts the bodies report.  Every
`while (cond && counter < cap)` loop of the source is an instance. -/
def iterC {St : Type} (stop : St → Bool) (body : St → St × ℕ) : ℕ → St × ℕ → St × ℕ
  | 0, sc => sc
  | Nat.succ n, sc =>
    if stop sc.1 then sc
    else
      let r := body sc.1
      iterC stop body n (r.1, sc.2 + r.2)

/-- State of a bracket-expansion loop: the two bounds and the value of the
objective at each. -/
structure BrSt (α : Type) where
  lo : ℚ
  hi : ℚ
  fLo : α
  fHi : α

/-- State of the inner bisection loops (`solveB` style, lines 108-121):
bounds, their objective values, and the early-returned midpoint if the
tolerance test succeeded. -/
structure BiSt where
  lo : ℚ
  hi : ℚ
  fLo : ℚ
  fHi : ℚ
  out : Option ℚ

/-- State of the outer bisection loops (lines 230-247 and 349-363): bounds,
their residuals, the current midpoint `a`, and the break flag. -/
structure MidSt where
  lo : ℚ
  hi : ℚ
  fLo : Res
  fHi : Res
  cur : ℚ
  done : Bool

/-- Doubling expansion body shared by the `b`-searches (lines 98-103 and
152-157 and 271-275): double both bounds and re-evaluate. -/
def expandBody (f : ℚ → ℚ × ℕ) (st : BrSt ℚ) : BrSt ℚ × ℕ :=
  let lo := st.lo * 2
  let hi := st.hi * 2
  let rLo := f lo
  let rHi := f hi
  (⟨lo, hi, rLo.1, rHi.1⟩, rLo.2 + rHi.2)

/-- The expansion loops stop once the two objective values no longer have a
positive product (environment values are always finite in the model). -/
def expandStop (st : BrSt ℚ) : Bool := decide (st.fLo * st.fHi ≤ 0)

/-- Bisection body of the inner solves: evaluate at the midpoint, return it
when within `tol`, otherwise keep the sign-changing half. -/
def bisectBody (f : ℚ → ℚ × ℕ) (tol : ℚ) (st : BiSt) : BiSt × ℕ :=
  let bm := 0.5 * (st.lo + st.hi)
  let r := f bm
  let fv := r.1
  if |fv| < tol then ({ st with out := some bm }, r.2)
  else if fv * st.fLo < 0 then ({ st with hi := bm, fHi := fv }, r.2)
  else ({ st with lo := bm, fLo := fv }, r.2)

/-- The inner bisections stop on the first midpoint within tolerance. -/
def bisectStop (st : BiSt) : Bool := st.out.isSome

/-- The difference closure `fb` used by both `b`-solvers (lines 89 and
139-143, textually duplicated in the source):
`a * (cosh((L-b)/a) - cosh(-b/a)) - dz`.  Costs two `cosh` calls. -/
def fbB (env : Env) (ctx : Ctx) (a b : ℚ) : ℚ × ℕ :=
  (a * (env.cosh ((ctx.L - b) / a) - env.cosh (-b / a)) - ctx.dz, 2)

/-- The bracket phase of `solveBForA` (lines 144-158): initial bounds
`[-10L, 10L]`, their objective values, and at most 30 doublings.  The count
totals the two initial evaluations and those of the expansion loop. -/
def bExpand (env : Env) (ctx : Ctx) (a : ℚ) : BrSt ℚ × ℕ :=
  let lo := -ctx.L * 10
  let hi := ctx.L * 10
  let rLo := fbB env ctx a lo
  let rHi := fbB env ctx a hi
  let e := iterC expandStop (expandBody (fbB env ctx a)) 30 (⟨lo, hi, rLo.1, rHi.1⟩, 0)
  (e.1, rLo.2 + rHi.2 + e.2)

/-- `solveBForA` (lines 138-177): bracket `b` starting from `[-10L, 10L]`
with at most 30 doublings, then up to 60 bisection steps at tolerance
`1e-5`; `none` when no bracket was found. -/
def solveBForA (env : Env) (ctx : Ctx) (a : ℚ) : Option ℚ × ℕ :=
  let e := bExpand env ctx a
  if 0 < e.1.fLo * e.1.fHi then (none, e.2)
  else
    let b := iterC bisectStop (bisectBody (fbB env ctx a) 1e-5) 60
      (⟨e.1.lo, e.1.hi, e.1.fLo, e.1.fHi, none⟩, 0)
    (some (b.1.out.getD (0.5 * (b.1.lo + b.1.hi))), e.2 + b.2)

/-- The physics-mode `solveB` closure (lines 88-123).  It is textually the
same search as `solveBForA` except that a bracketing failure returns `0`
instead of `null`. -/
def solveBPhys (env : Env) (ctx : Ctx) (a : ℚ) : ℚ × ℕ :=
  let r := solveBForA env ctx a
  (r.1.getD 0, r.2)

/-- Physics mode computes `a` directly (line 85):
`hTension / Math.max(1e-6, linearWeight)`. -/
def physA (ctx : Ctx) : ℚ := ctx.hTension / max 1e-6 ctx.linearWeight

/-- `buildPositionsFromParams` (lines 38-82): sample `numPoints + 1` points
of `z(x) = a cosh((x-b)/a) + c` back into the local frame, re-sample the
curve to compute the discrete maximum sag below the chord, and attach the
metadata record.  Costs two `cosh` calls per sample.  The source also
tracks `minZ`/`maxZ` over the first loop (lines 40-53) but never reads
them; that dead bookkeeping is omitted. -/
def buildPositionsFromParams (env : Env) (ctx : Ctx) (a b c : ℚ) : SampleSet × ℕ :=
  let positions := (List.range (ctx.numPoints + 1)).map (fun (i : ℕ) =>
    let t : ℚ := (i : ℚ) / (ctx.numPoints : ℚ)
    let x := t * ctx.L
    let z := a * env.cosh ((x - b) / a) + c
    (⟨ctx.p0.x + ctx.dirX * x, ctx.p0.y + ctx.dirY * x, z⟩ : Cartesian3))
  let maxSag := (List.range (ctx.numPoints + 1)).foldl (fun (acc : ℚ) (i : ℕ) =>
    let t : ℚ := (i : ℚ) / (ctx.numPoints : ℚ)
    let x := t * ctx.L
    let zCurve := a * env.cosh ((x - b) / a) + c
    let zChord := ctx.z0 + (ctx.z1 - ctx.z0) * t
    let sag := zChord - zCurve
    if sag > acc then sag else acc) 0
  ({ points := positions
     metadata := some
       { a := a
         sag := maxSag
         hTension := a * ctx.linearWeight
         linearWeight := ctx.linearWeight } },
   2 * (ctx.numPoints + 1))

/-- Length-mode validity test (line 129-134): the mode tag is `"length"`
and a finite, strictly positive target length was supplied. -/
def lengthValidB (mode : String) (lengthMeters : Option ℚ) : Bool :=
  mode == "length" &&
    (match lengthMeters with
     | some v => decide (0 < v)
     | none => false)

/-- The clamped target length `S` of line 135:
`Math.max(lengthMeters, chordLen + 1e-6)`. -/
def targetS (ctx : Ctx) (lengthMeters : ℚ) : ℚ :=
  max lengthMeters (ctx.chordLen + 1e-6)

/-- `lengthResidual` (lines 179-187): predicted arc length minus target,
with the positive-infinity sentinel when the inner `b`-solve fails. -/
def lengthResidual (env : Env) (ctx : Ctx) (S a : ℚ) : Res × ℕ :=
  let r := solveBForA env ctx a
  match r.1 with
  | none => (none, r.2)
  | some b =>
    let u1 := (ctx.L - b) / a
    let S_pred := a * (env.sinh u1 + env.sinh (b / a))
    (some (S_pred - S), r.2 + 2)

/-- Guard-loop body of the outer `a` bracket in length mode
(lines 206-219): grow the side (or both) that keeps both residuals of one
sign. -/
def lengthGuardBody (env : Env) (ctx : Ctx) (S : ℚ) (st : BrSt Res) : BrSt Res × ℕ :=
  if resPos st.fLo && resPos st.fHi then
    let hi := st.hi * 2
    let r := lengthResidual env ctx S hi
    ({ st with hi := hi, fHi := r.1 }, r.2)
  else if resNeg st.fLo && resNeg st.fHi then
    let lo := st.lo * 0.5
    let r := lengthResidual env ctx S lo
    ({ st with lo := lo, fLo := r.1 }, r.2)
  else
    let lo := st.lo * 0.5
    let hi := st.hi * 2
    let rLo := lengthResidual env ctx S lo
    let rHi := lengthResidual env ctx S hi
    (⟨lo, hi, rLo.1, rHi.1⟩, rLo.2 + rHi.2)

/-- The guard loop stops as soon as the residuals bracket. -/
def lengthGuardStop (st : BrSt Res) : Bool := hasBracket st.fLo st.fHi

/-- Lines 189-220: initial outer bounds
`[max(L/600, 0.1), 1000 L]` for `a`, their residuals, and up to 20 guarded
expansions. -/
def lengthSetup (env : Env) (ctx : Ctx) (S : ℚ) : BrSt Res × ℕ :=
  let aLo := max (ctx.L / 600) 0.1
  let aHi := ctx.L * 1000
  let rLo := lengthResidual env ctx S aLo
  let rHi := lengthResidual env ctx S aHi
  let g := iterC lengthGuardStop (lengthGuardBody env ctx S) 20
    (⟨aLo, aHi, rLo.1, rHi.1⟩, 0)
  (g.1, rLo.2 + rHi.2 + g.2)

/-- Outer-bisection body in length mode (lines 231-246): break inside the
tolerance; a positive-infinity residual raises the lower bound, otherwise
standard sign bookkeeping; the midpoint is recomputed at the end of the
body. -/
def lengthBisectBody (env : Env) (ctx : Ctx) (S : ℚ) (st : MidSt) : MidSt × ℕ :=
  let r := lengthResidual env ctx S st.cur
  let f := r.1
  if absLtTol f 1e-4 then ({ st with done := true }, r.2)
  else
    let st' :=
      match f with
      | none => { st with lo := st.cur, fLo := none }
      | some v =>
        if mulNegRes (some v) st.fLo then { st with hi := st.cur, fHi := some v }
        else { st with lo := st.cur, fLo := some v }
    ({ st' with cur := 0.5 * (st'.lo + st'.hi) }, r.2)

/-- The outer bisections stop once the break flag is set. -/
def midStop (st : MidSt) : Bool := st.done

/-- The full outer search for `a` in length mode: setup then up to 60
bisection steps starting from the midpoint of the final bracket. -/
def lengthSearch (env : Env) (ctx : Ctx) (S : ℚ) : MidSt × ℕ :=
  let e := lengthSetup env ctx S
  let m := iterC midStop (lengthBisectBody env ctx S) 60
    (⟨e.1.lo, e.1.hi, e.1.fLo, e.1.fHi, 0.5 * (e.1.lo + e.1.hi), false⟩, 0)
  (m.1, e.2 + m.2)

/-- The value of `a` the length branch settles on. -/
def lengthFinalA (env : Env) (ctx : Ctx) (S : ℚ) : ℚ := (lengthSearch env ctx S).1.cur

/-- The sag-mode inner closure `g` inside `solveP` (lines 260-264):
`a * (cosh((L-p)/a) - cosh(p/a)) - dz`.  Costs two `cosh` calls. -/
def gP (env : Env) (ctx : Ctx) (a p : ℚ) : ℚ × ℕ :=
  (a * (env.cosh ((ctx.L - p) / a) - env.cosh (p / a)) - ctx.dz, 2)

/-- The bracket phase of `solveP` (lines 265-276): initial bounds
`[-4L, 4L]` and at most 20 doublings. -/
def pExpand (env : Env) (ctx : Ctx) (a : ℚ) : BrSt ℚ × ℕ :=
  let lo := -ctx.L * 4
  let hi := ctx.L * 4
  let rLo := gP env ctx a lo
  let rHi := gP env ctx a hi
  let e := iterC expandStop (expandBody (gP env ctx a)) 20 (⟨lo, hi, rLo.1, rHi.1⟩, 0)
  (e.1, rLo.2 + rHi.2 + e.2)

/-- `solveP` (lines 258-295): bracket `p` from `[-4L, 4L]` with at most 20
doublings, then up to 50 bisection steps at tolerance `1e-5`; `none` when
no bracket was found. -/
def solveP (env : Env) (ctx : Ctx) (a : ℚ) : Option ℚ × ℕ :=
  let e := pExpand env ctx a
  if 0 < e.1.fLo * e.1.fHi then (none, e.2)
  else
    let b := iterC bisectStop (bisectBody (gP env ctx a) 1e-5) 50
      (⟨e.1.lo, e.1.hi, e.1.fLo, e.1.fHi, none⟩, 0)
    (some (b.1.out.getD (0.5 * (b.1.lo + b.1.hi))), e.2 + b.2)

/-- The sag-mode outer objective `h` (lines 296-305): mid-span gap between
the straight chord and the curve minus the requested sag, with the
positive-infinity sentinel when `solveP` fails.  Costs two more `cosh`
calls on success. -/
def hSag (env : Env) (ctx : Ctx) (a : ℚ) : Res × ℕ :=
  let r := solveP env ctx a
  match r.1 with
  | none => (none, r.2)
  | some p =>
    let uMid := (ctx.L / 2 - p) / a
    let u0 := -p / a
    let zMid := a * env.cosh uMid + (ctx.z0 - a * env.cosh u0)
    (some ((ctx.z0 + ctx.dz / 2) - zMid - ctx.sagRatio * ctx.L), r.2 + 2)

/-- State of the two nudge loops of lines 310-321: the bound being nudged
and its objective value. -/
structure NudgeSt where
  a : ℚ
  f : Res

/-- The nudge loops stop once the objective value is finite. -/
def nudgeStop (st : NudgeSt) : Bool := st.f.isSome

/-- Nudging the lower sag bound inward: halve and re-evaluate. -/
def nudgeLoBody (env : Env) (ctx : Ctx) (st : NudgeSt) : NudgeSt × ℕ :=
  let a := st.a * 0.5
  let r := hSag env ctx a
  (⟨a, r.1⟩, r.2)

/-- Nudging the upper sag bound outward: double and re-evaluate. -/
def nudgeHiBody (env : Env) (ctx : Ctx) (st : NudgeSt) : NudgeSt × ℕ :=
  let a := st.a * 2
  let r := hSag env ctx a
  (⟨a, r.1⟩, r.2)

/-- Asymmetric expansion body of the sag-mode outer bracket
(lines 323-332): grow the side whose objective is smaller in magnitude. -/
def sagExpandBody (env : Env) (ctx : Ctx) (st : BrSt Res) : BrSt Res × ℕ :=
  if absLtRes st.fLo st.fHi then
    let hi := st.hi * 2
    let r := hSag env ctx hi
    ({ st with hi := hi, fHi := r.1 }, r.2)
  else
    let lo := st.lo * 0.5
    let r := hSag env ctx lo
    ({ st with lo := lo, fLo := r.1 }, r.2)

/-- The sag expansion loop runs while the product of the objectives is
positive in the JS sense. -/
def sagExpandStop (st : BrSt Res) : Bool := !(mulPosRes st.fLo st.fHi)

/-- Lines 306-332: initial sag bounds `[max(0.1, 0.01 L), 100 L]`, up to 5
finiteness nudges on each side, then up to 20 asymmetric expansions. -/
def sagSetup (env : Env) (ctx : Ctx) : BrSt Res × ℕ :=
  let aLo := max 0.1 (ctx.L * 0.01)
  let aHi := ctx.L * 100
  let rLo := hSag env ctx aLo
  let rHi := hSag env ctx aHi
  let nLo := iterC nudgeStop (nudgeLoBody env ctx) 5 (⟨aLo, rLo.1⟩, 0)
  let nHi := iterC nudgeStop (nudgeHiBody env ctx) 5 (⟨aHi, rHi.1⟩, 0)
  let ex := iterC sagExpandStop (sagExpandBody env ctx) 20
    (⟨nLo.1.a, nHi.1.a, nLo.1.f, nHi.1.f⟩, 0)
  (ex.1, rLo.2 + rHi.2 + nLo.2 + nHi.2 + ex.2)

/-- The bracketing-failure test of line 333 that sends sag mode to the
parabola: positive product or a non-finite objective at either bound. -/
def sagBracketFail (env : Env) (ctx : Ctx) : Bool :=
  let st := (sagSetup env ctx).1
  mulPosRes st.fLo st.fHi || st.fLo.isNone || st.fHi.isNone

/-- Outer-bisection body in sag mode (lines 350-362): break inside the
tolerance, otherwise standard sign bookkeeping (no special infinity branch
here), midpoint recomputed at the end of the body. -/
def sagBisectBody (env : Env) (ctx : Ctx) (st : MidSt) : MidSt × ℕ :=
  let r := hSag env ctx st.cur
  let f := r.1
  if absLtTol f 1e-4 then ({ st with done := true }, r.2)
  else
    let st' :=
      if mulNegRes f st.fLo then { st with hi := st.cur, fHi := f }
      else { st with lo := st.cur, fLo := f }
    ({ st' with cur := 0.5 * (st'.lo + st'.hi) }, r.2)

/-- The full outer search for `a` in sag mode: setup then up to 40
bisection steps starting from the midpoint of the final bracket. -/
def sagSearch (env : Env) (ctx : Ctx) : MidSt × ℕ :=
  let e := sagSetup env ctx
  let m := iterC midStop (sagBisectBody env ctx) 40
    (⟨e.1.lo, e.1.hi, e.1.fLo, e.1.fHi, 0.5 * (e.1.lo + e.1.hi), false⟩, 0)
  (m.1, e.2 + m.2)

/-- The value of `a` the sag branch settles on. -/
def sagFinalA (env : Env) (ctx : Ctx) : ℚ := (sagSearch env ctx).1.cur

/-- The closed-form parabola of the terminal fallback (lines 335-347 and
367-379, two textually identical blocks): vertical deflection
`sagRatio * L * 4 t (1-t)` below the straight chord.  No environment
calls. -/
def parabolaPoints (ctx : Ctx) : List Cartesian3 :=
  (List.range (ctx.numPoints + 1)).map (fun (i : ℕ) =>
    let t : ℚ := (i : ℚ) / (ctx.numPoints : ℚ)
    let x := t * ctx.L
    let yLine := ctx.z0 + ctx.dz * t
    let sag := ctx.sagRatio * ctx.L * (4 * t * (1 - t))
    let z := yLine - sag
    (⟨ctx.p0.x + ctx.dirX * x, ctx.p0.y + ctx.dirY * x, z⟩ : Cartesian3))

/-- `createSagBased` (lines 256-383): solve `a` for the requested sag,
falling back to the parabola when bracketing fails or the final inner
solve fails; on success `c` is computed from the pass-through identity and
the curve is sampled with metadata attached. -/
def createSagBasedC (env : Env) (ctx : Ctx) : SampleSet × ℕ :=
  if sagBracketFail env ctx then
    ({ points := parabolaPoints ctx, metadata := none }, (sagSetup env ctx).2)
  else
    let m := sagSearch env ctx
    let a := m.1.cur
    let rp := solveP env ctx a
    match rp.1 with
    | none => ({ points := parabolaPoints ctx, metadata := none }, m.2 + rp.2)
    | some p =>
      let c := ctx.z0 - a * env.cosh (-p / a)
      let bp := buildPositionsFromParams env ctx a p c
      (bp.1, m.2 + rp.2 + 1 + bp.2)

/-- The length branch (lines 129-254): clamp is already applied to `S`;
bracket and bisect `a`, falling back to `createSagBased` when the outer
bracket fails or the final inner solve fails; on success `c` is computed
from the pass-through identity and the curve is sampled with metadata. -/
def lengthBranchC (env : Env) (ctx : Ctx) (S : ℚ) : SampleSet × ℕ :=
  let e := lengthSetup env ctx S
  if hasBracket e.1.fLo e.1.fHi then
    let m := lengthSearch env ctx S
    let a := m.1.cur
    let rb := solveBForA env ctx a
    match rb.1 with
    | none =>
      let s := createSagBasedC env ctx
      (s.1, m.2 + rb.2 + s.2)
    | some b =>
      let c := ctx.z0 - a * env.cosh (-b / a)
      let bp := buildPositionsFromParams env ctx a b c
      (bp.1, m.2 + rb.2 + 1 + bp.2)
  else
    let s := createSagBasedC env ctx
    (s.1, e.2 + s.2)

/-- `createTransmissionLine` (lines 10-386) with its environment-call
count: degenerate spans return the raw endpoints with no metadata; physics
mode computes `a` directly and searches only `b` (defaulting to `0`);
a valid length request is clamped and solved; everything else runs the
sag-based solver. -/
def createTransmissionLineC (env : Env) (startPos endPos : Cartesian3)
    (options : LineOptions) : SampleSet × ℕ :=
  let ctx := mkCtx env startPos endPos options
  let mode := options.mode.getD "physics"
  if ctx.L < 0.1 then
    ({ points := [startPos, endPos], metadata := none }, 1)
  else if mode = "physics" then
    let a := physA ctx
    let rb := solveBPhys env ctx a
    let b := rb.1
    let c := ctx.z0 - a * env.cosh (-b / a)
    let bp := buildPositionsFromParams env ctx a b c
    (bp.1, 2 + rb.2 + 1 + bp.2)
  else if lengthValidB mode options.lengthMeters then
    let s := lengthBranchC env ctx (targetS ctx (options.lengthMeters.getD 0))
    (s.1, 2 + s.2)
  else
    let s := createSagBasedC env ctx
    (s.1, 2 + s.2)

/-- The returned sample set of `createTransmissionLine`. -/
def createTransmissionLine (env : Env) (startPos endPos : Cartesian3)
    (options : LineOptions) : SampleSet :=
  (createTransmissionLineC env startPos endPos options).1

/-- The number of environment calls a run performs. -/
def createTransmissionLineEvals (env : Env) (startPos endPos : Cartesian3)
    (options : LineOptions) : ℕ :=
  (createTransmissionLineC env startPos endPos options).2

/-! ### Concrete fixtures for witnesses and counterexamples

`qEnv` supplies computable stand-ins for the library functions: the exact
rational square root (exact on perfect squares), the quadratic lower
truncation of the cosh series (even, convex, value 1 at 0, like the real
cosh), and the linear truncation of the sinh series.  Theorems quantified
over `env` are instantiated at it; counterexamples use inputs on which the
control flow under `qEnv` matches the control flow under the real library
functions. -/

def qEnv : Env :=
  { sqrt := Rat.sqrt
    cosh := fun x => 1 + x ^ 2 / 2
    sinh := fun x => x }

def s0 : Cartesian3 := ⟨0, 0, 0⟩

def e0 : Cartesian3 := ⟨1, 0, 0⟩

/-- Physics mode with the option defaults (`hTension = 15000`,
`linearWeight = 30`, so `a = 500`) at a small sample resolution. -/
def oPhys : LineOptions :=
  { numPoints := some 2, mode := some "physics" }

/-- Physics mode with a linear weight strictly between `0` and `1e-6`. -/
def oPhysTiny : LineOptions :=
  { numPoints := some 2, hTension := some 1, linearWeight := some (1 / 10000000)
    mode := some "physics" }

/-- Sag mode with sag ratio `0`: the outer objective is strictly positive at
every probed `a`, so bracketing fails and the parabola fallback runs (the
same control flow the real library functions produce on this input). -/
def oSagZero : LineOptions :=
  { numPoints := some 2, sagRatio := some 0, mode := some "sag" }

/-- Length mode requesting a cable shorter than the chord. -/
def oLen : LineOptions :=
  { numPoints := some 2, mode := some "length", lengthMeters := some 1 }

/-- Length mode with the target length absent. -/
def oLenMissing : LineOptions :=
  { numPoints := some 2, mode := some "length" }

/-- Empty options: every source default applies. -/
def oEmpty : LineOptions := {}

/-- An endpoint one unit across and one unit above the origin. -/
def e7 : Cartesian3 := ⟨1, 0, 1⟩

/-- Physics mode with an extreme tension: `a = 1e200`, so the root of the
`b`-equation sits near `-1e200`, far outside the `±10L·2^30` reach of the
bracket expansion; the search fails and `b` defaults to `0` (the real
library functions produce the same control flow: every probed `cosh`
argument is about `1e-190`, so `fb` is constantly `-dz`). -/
def oPhys200 : LineOptions :=
  { numPoints := some 2, hTension := some 1e200, linearWeight := some 1
    mode := some "physics" }

/-! ### Branch and shape lemmas -/

theorem ctl_degenerate (env : Env) (s e : Cartesian3) (o : LineOptions)
    (h : (mkCtx env s e o).L < 0.1) :
    createTransmissionLineC env s e o = ({ points := [s, e], metadata := none }, 1) := by
  unfold createTransmissionLineC
  rw [if_pos h]

theorem ctl_physics (env : Env) (s e : Cartesian3) (o : LineOptions)
    (hnd : ¬ (mkCtx env s e o).L < 0.1) (hm : o.mode.getD "physics" = "physics") :
    createTransmissionLineC env s e o =
      (let ctx := mkCtx env s e o
       let a := physA ctx
       let rb := solveBPhys env ctx a
       let c := ctx.z0 - a * env.cosh (-rb.1 / a)
       let bp := buildPositionsFromParams env ctx a rb.1 c
       (bp.1, 2 + rb.2 + 1 + bp.2)) := by
  unfold createTransmissionLineC
  rw [if_neg hnd, if_pos hm]

theorem ctl_length (env : Env) (s e : Cartesian3) (o : LineOptions)
    (hnd : ¬ (mkCtx env s e o).L < 0.1) (hm : o.mode.getD "physics" ≠ "physics")
    (hv : lengthValidB (o.mode.getD "physics") o.lengthMeters = true) :
    createTransmissionLineC env s e o =
      (let ctx := mkCtx env s e o
       let r := lengthBranchC env ctx (targetS ctx (o.lengthMeters.getD 0))
       (r.1, 2 + r.2)) := by
  unfold createTransmissionLineC
  rw [if_neg hnd, if_neg hm, if_pos hv]

theorem ctl_sag (env : Env) (s e : Cartesian3) (o : LineOptions)
    (hnd : ¬ (mkCtx env s e o).L < 0.1) (hm : o.mode.getD "physics" ≠ "physics")
    (hv : lengthValidB (o.mode.getD "physics") o.lengthMeters = false) :
    createTransmissionLineC env s e o =
      (let ctx := mkCtx env s e o
       let r := createSagBasedC env ctx
       (r.1, 2 + r.2)) := by
  unfold createTransmissionLineC
  rw [if_neg hnd, if_neg hm, if_neg (by simp [hv])]

theorem buildPositions_points_length (env : Env) (ctx : Ctx) (a b c : ℚ) :
    ((buildPositionsFromParams env ctx a b c).1).points.length = ctx.numPoints + 1 := by
  simp only [buildPositionsFromParams, List.length_map, List.length_range]

theorem buildPositions_metadata (env : Env) (ctx : Ctx) (a b c : ℚ) :
    Option.map (fun m => Metadata.a m) ((buildPositionsFromParams env ctx a b c).1).metadata
      = some a := by
  simp [buildPositionsFromParams]

theorem buildPositions_metadata_isSome (env : Env) (ctx : Ctx) (a b c : ℚ) :
    ((buildPositionsFromParams env ctx a b c).1).metadata.isSome := by
  simp [buildPositionsFromParams]

theorem parabolaPoints_length (ctx : Ctx) :
    (parabolaPoints ctx).length = ctx.numPoints + 1 := by
  simp only [parabolaPoints, List.length_map, List.length_range]

theorem map_range_head_eq {α : Type} (f : ℕ → α) (n : ℕ) :
    ((List.range (n + 1)).map f).head? = some (f 0) := by
  rw [List.range_succ_eq_map, List.map_cons, List.head?_cons]

theorem map_range_getLast_eq {α : Type} (f : ℕ → α) (n : ℕ) :
    ((List.range (n + 1)).map f).getLast? = some (f n) := by
  rw [List.range_succ, List.map_append]
  exact List.getLast?_concat _

/-- The first sampled point of a catenary build: local start coordinates at
height `a cosh(-b/a) + c`. -/
theorem buildPositions_head (env : Env) (ctx : Ctx) (a b c : ℚ) :
    ((buildPositionsFromParams env ctx a b c).1).points.head?
      = some ⟨ctx.p0.x, ctx.p0.y, a * env.cosh (-b / a) + c⟩ := by
  unfold buildPositionsFromParams
  dsimp only
  rw [map_range_head_eq]
  norm_num

/-- The last sampled point of a catenary build (one sampling interval or
more): local end coordinates at height `a cosh((L-b)/a) + c`. -/
theorem buildPositions_getLast (env : Env) (ctx : Ctx) (a b c : ℚ)
    (hN : ctx.numPoints ≠ 0) :
    ((buildPositionsFromParams env ctx a b c).1).points.getLast?
      = some ⟨ctx.p0.x + ctx.dirX * ctx.L, ctx.p0.y + ctx.dirY * ctx.L,
          a * env.cosh ((ctx.L - b) / a) + c⟩ := by
  unfold buildPositionsFromParams
  dsimp only
  rw [map_range_getLast_eq]
  have ht : ((ctx.numPoints : ℚ)) / ((ctx.numPoints : ℚ)) = 1 :=
    div_self (Nat.cast_ne_zero.mpr hN)
  rw [ht]
  norm_num

/-- The first point of the parabola fallback: the local start itself. -/
theorem parabolaPoints_head (ctx : Ctx) :
    (parabolaPoints ctx).head? = some ⟨ctx.p0.x, ctx.p0.y, ctx.z0⟩ := by
  unfold parabolaPoints
  rw [map_range_head_eq]
  norm_num

/-- The last point of the parabola fallback (one sampling interval or
more): the local end itself, since the deflection `4t(1-t)` vanishes at
`t = 1`. -/
theorem parabolaPoints_getLast (ctx : Ctx) (hN : ctx.numPoints ≠ 0) :
    (parabolaPoints ctx).getLast?
      = some ⟨ctx.p0.x + ctx.dirX * ctx.L, ctx.p0.y + ctx.dirY * ctx.L,
          ctx.z0 + ctx.dz⟩ := by
  unfold parabolaPoints
  rw [map_range_getLast_eq]
  have ht : ((ctx.numPoints : ℚ)) / ((ctx.numPoints : ℚ)) = 1 :=
    div_self (Nat.cast_ne_zero.mpr hN)
  rw [ht]
  norm_num

/-- Result shape of the sag-based solver: either the metadata-less parabola
fallback, or a sampled catenary whose `c` was computed from the
pass-through identity. -/
theorem sag_shape (env : Env) (ctx : Ctx) :
    (createSagBasedC env ctx).1 = { points := parabolaPoints ctx, metadata := none } ∨
    ∃ a p, (createSagBasedC env ctx).1
        = (buildPositionsFromParams env ctx a p (ctx.z0 - a * env.cosh (-p / a))).1 := by
  unfold createSagBasedC
  dsimp only
  by_cases hf : sagBracketFail env ctx = true
  · rw [if_pos hf]
    exact Or.inl rfl
  · rw [if_neg hf]
    rcases hp : (solveP env ctx (sagSearch env ctx).1.cur).1 with _ | p
    · exact Or.inl rfl
    · exact Or.inr ⟨(sagSearch env ctx).1.cur, p, rfl⟩

/-- Result shape of the length branch: its own sampled catenary, or the
sag-based result. -/
theorem length_shape (env : Env) (ctx : Ctx) (S : ℚ) :
    (lengthBranchC env ctx S).1 = (createSagBasedC env ctx).1 ∨
    ∃ a b, (lengthBranchC env ctx S).1
        = (buildPositionsFromParams env ctx a b (ctx.z0 - a * env.cosh (-b / a))).1 := by
  unfold lengthBranchC
  dsimp only
  by_cases hf : hasBracket ((lengthSetup env ctx S).1).fLo ((lengthSetup env ctx S).1).fHi = true
  · rw [if_pos hf]
    rcases hb : (solveBForA env ctx (lengthSearch env ctx S).1.cur).1 with _ | b
    · exact Or.inl rfl
    · exact Or.inr ⟨(lengthSearch env ctx S).1.cur, b, rfl⟩
  · rw [if_neg hf]
    exact Or.inl rfl

/-- Master shape lemma: every non-degenerate run returns either the
metadata-less parabola or a sampled catenary built from parameters whose
`c` comes from the pass-through identity. -/
theorem ctl_shape (env : Env) (s e : Cartesian3) (o : LineOptions)
    (hnd : ¬ (mkCtx env s e o).L < 0.1) :
    createTransmissionLine env s e o
        = { points := parabolaPoints (mkCtx env s e o), metadata := none } ∨
    ∃ a b, createTransmissionLine env s e o
        = (buildPositionsFromParams env (mkCtx env s e o) a b
            ((mkCtx env s e o).z0 - a * env.cosh (-b / a))).1 := by
  by_cases hm : o.mode.getD "physics" = "physics"
  · rw [createTransmissionLine, ctl_physics env s e o hnd hm]
    exact Or.inr ⟨physA (mkCtx env s e o),
      (solveBPhys env (mkCtx env s e o) (physA (mkCtx env s e o))).1, rfl⟩
  · by_cases hv : lengthValidB (o.mode.getD "physics") o.lengthMeters = true
    · rw [createTransmissionLine, ctl_length env s e o hnd hm hv]
      show (lengthBranchC env (mkCtx env s e o)
        (targetS (mkCtx env s e o) (o.lengthMeters.getD 0))).1 = _ ∨ _
      rcases length_shape env (mkCtx env s e o) (targetS (mkCtx env s e o)
          (o.lengthMeters.getD 0)) with h | ⟨a, b, h⟩
      · rcases sag_shape env (mkCtx env s e o) with h2 | ⟨a, p, h2⟩
        · exact Or.inl (h.trans h2)
        · exact Or.inr ⟨a, p, h.trans h2⟩
      · exact Or.inr ⟨a, b, h⟩
    · rw [createTransmissionLine,
        ctl_sag env s e o hnd hm (Bool.not_eq_true _ ▸ hv)]
      show (createSagBasedC env (mkCtx env s e o)).1 = _ ∨ _
      exact sag_shape env (mkCtx env s e o)

/-! ### Evaluation-count lemmas

Each loop of the source has a hard iteration or expansion cap, so the
number of environment calls of a whole run is bounded by a closed
expression in the sample resolution alone. -/

theorem iterC_evals_le {St : Type} (stop : St → Bool) (body : St → St × ℕ) (B : ℕ)
    (hB : ∀ st, (body st).2 ≤ B) (n : ℕ) (sc : St × ℕ) :
    (iterC stop body n sc).2 ≤ sc.2 + n * B := by
  induction n generalizing sc with
  | zero =>
    rw [iterC]
    exact Nat.le_add_right _ _
  | succ n ih =>
    rw [iterC]
    by_cases h : stop sc.1
    · rw [if_pos h]
      exact Nat.le_add_right _ _
    · rw [if_neg h]
      dsimp only
      refine le_trans (ih _) ?_
      refine le_trans (Nat.add_le_add_right (Nat.add_le_add_left (hB sc.1) sc.2) (n * B)) ?_
      rw [Nat.succ_mul]
      exact le_of_eq (by ring)

theorem expandBody_evals_le {f : ℚ → ℚ × ℕ} (hf : ∀ x, (f x).2 ≤ 2) (st : BrSt ℚ) :
    (expandBody f st).2 ≤ 4 := by
  dsimp only [expandBody]
  exact le_trans (Nat.add_le_add (hf _) (hf _)) (by norm_num)

theorem bisectBody_evals_le {f : ℚ → ℚ × ℕ} (hf : ∀ x, (f x).2 ≤ 2) (tol : ℚ) (st : BiSt) :
    (bisectBody f tol st).2 ≤ 2 := by
  dsimp only [bisectBody]
  split
  · exact hf _
  · split
    · exact hf _
    · exact hf _

theorem bExpand_evals_le (env : Env) (ctx : Ctx) (a : ℚ) : (bExpand env ctx a).2 ≤ 124 := by
  have hf : ∀ x, (fbB env ctx a x).2 ≤ 2 := fun _ => le_refl _
  unfold bExpand
  dsimp only
  exact le_trans (Nat.add_le_add (Nat.add_le_add (hf _) (hf _))
    (iterC_evals_le _ _ 4 (fun st => expandBody_evals_le hf st) 30 _)) (by norm_num)

theorem solveBForA_evals_le (env : Env) (ctx : Ctx) (a : ℚ) :
    (solveBForA env ctx a).2 ≤ 244 := by
  have hf : ∀ x, (fbB env ctx a x).2 ≤ 2 := fun _ => le_refl _
  unfold solveBForA
  dsimp only
  split
  · exact le_trans (bExpand_evals_le env ctx a) (by norm_num)
  · exact le_trans (Nat.add_le_add (bExpand_evals_le env ctx a)
      (iterC_evals_le _ _ 2 (fun st => bisectBody_evals_le hf _ st) 60 _)) (by norm_num)

theorem solveBPhys_evals_le (env : Env) (ctx : Ctx) (a : ℚ) :
    (solveBPhys env ctx a).2 ≤ 244 := by
  unfold solveBPhys
  dsimp only
  exact solveBForA_evals_le env ctx a

theorem lengthResidual_evals_le (env : Env) (ctx : Ctx) (S a : ℚ) :
    (lengthResidual env ctx S a).2 ≤ 246 := by
  unfold lengthResidual
  dsimp only
  rcases h : (solveBForA env ctx a).1 with _ | b
  · exact le_trans (solveBForA_evals_le env ctx a) (by norm_num)
  · exact le_trans (Nat.add_le_add_right (solveBForA_evals_le env ctx a) 2) (by norm_num)

theorem lengthGuardBody_evals_le (env : Env) (ctx : Ctx) (S : ℚ) (st : BrSt Res) :
    (lengthGuardBody env ctx S st).2 ≤ 492 := by
  unfold lengthGuardBody
  dsimp only
  split
  · exact le_trans (lengthResidual_evals_le _ _ _ _) (by norm_num)
  · split
    · exact le_trans (lengthResidual_evals_le _ _ _ _) (by norm_num)
    · exact le_trans (Nat.add_le_add (lengthResidual_evals_le _ _ _ _)
        (lengthResidual_evals_le _ _ _ _)) (by norm_num)

theorem lengthSetup_evals_le (env : Env) (ctx : Ctx) (S : ℚ) :
    (lengthSetup env ctx S).2 ≤ 10332 := by
  unfold lengthSetup
  dsimp only
  exact le_trans (Nat.add_le_add (Nat.add_le_add (lengthResidual_evals_le _ _ _ _)
      (lengthResidual_evals_le _ _ _ _))
    (iterC_evals_le _ _ 492 (fun st => lengthGuardBody_evals_le env ctx S st) 20 _))
    (by norm_num)

theorem lengthBisectBody_evals_le (env : Env) (ctx : Ctx) (S : ℚ) (st : MidSt) :
    (lengthBisectBody env ctx S st).2 ≤ 246 := by
  unfold lengthBisectBody
  dsimp only
  split
  · exact lengthResidual_evals_le _ _ _ _
  · exact lengthResidual_evals_le _ _ _ _

theorem lengthSearch_evals_le (env : Env) (ctx : Ctx) (S : ℚ) :
    (lengthSearch env ctx S).2 ≤ 25092 := by
  unfold lengthSearch
  dsimp only
  exact le_trans (Nat.add_le_add (lengthSetup_evals_le env ctx S)
    (iterC_evals_le _ _ 246 (fun st => lengthBisectBody_evals_le env ctx S st) 60 _))
    (by norm_num)

theorem pExpand_evals_le (env : Env) (ctx : Ctx) (a : ℚ) : (pExpand env ctx a).2 ≤ 84 := by
  have hf : ∀ x, (gP env ctx a x).2 ≤ 2 := fun _ => le_refl _
  unfold pExpand
  dsimp only
  exact le_trans (Nat.add_le_add (Nat.add_le_add (hf _) (hf _))
    (iterC_evals_le _ _ 4 (fun st => expandBody_evals_le hf st) 20 _)) (by norm_num)

theorem solveP_evals_le (env : Env) (ctx : Ctx) (a : ℚ) : (solveP env ctx a).2 ≤ 184 := by
  have hf : ∀ x, (gP env ctx a x).2 ≤ 2 := fun _ => le_refl _
  unfold solveP
  dsimp only
  split
  · exact le_trans (pExpand_evals_le env ctx a) (by norm_num)
  · exact le_trans (Nat.add_le_add (pExpand_evals_le env ctx a)
      (iterC_evals_le _ _ 2 (fun st => bisectBody_evals_le hf _ st) 50 _)) (by norm_num)

theorem hSag_evals_le (env : Env) (ctx : Ctx) (a : ℚ) : (hSag env ctx a).2 ≤ 186 := by
  unfold hSag
  dsimp only
  rcases h : (solveP env ctx a).1 with _ | p
  · exact le_trans (solveP_evals_le env ctx a) (by norm_num)
  · exact le_trans (Nat.add_le_add_right (solveP_evals_le env ctx a) 2) (by norm_num)

theorem nudgeLoBody_evals_le (env : Env) (ctx : Ctx) (st : NudgeSt) :
    (nudgeLoBody env ctx st).2 ≤ 186 := by
  unfold nudgeLoBody
  dsimp only
  exact hSag_evals_le _ _ _

theorem nudgeHiBody_evals_le (env : Env) (ctx : Ctx) (st : NudgeSt) :
    (nudgeHiBody env ctx st).2 ≤ 186 := by
  unfold nudgeHiBody
  dsimp only
  exact hSag_evals_le _ _ _

theorem sagExpandBody_evals_le (env : Env) (ctx : Ctx) (st : BrSt Res) :
    (sagExpandBody env ctx st).2 ≤ 186 := by
  unfold sagExpandBody
  dsimp only
  split
  · exact hSag_evals_le _ _ _
  · exact hSag_evals_le _ _ _

theorem sagSetup_evals_le (env : Env) (ctx : Ctx) : (sagSetup env ctx).2 ≤ 5952 := by
  unfold sagSetup
  dsimp only
  exact le_trans (Nat.add_le_add (Nat.add_le_add (Nat.add_le_add
      (Nat.add_le_add (hSag_evals_le _ _ _) (hSag_evals_le _ _ _))
      (iterC_evals_le _ _ 186 (fun st => nudgeLoBody_evals_le env ctx st) 5 _))
      (iterC_evals_le _ _ 186 (fun st => nudgeHiBody_evals_le env ctx st) 5 _))
      (iterC_evals_le _ _ 186 (fun st => sagExpandBody_evals_le env ctx st) 20 _))
    (by norm_num)

theorem sagBisectBody_evals_le (env : Env) (ctx : Ctx) (st : MidSt) :
    (sagBisectBody env ctx st).2 ≤ 186 := by
  unfold sagBisectBody
  dsimp only
  split
  · exact hSag_evals_le _ _ _
  · exact hSag_evals_le _ _ _

theorem sagSearch_evals_le (env : Env) (ctx : Ctx) : (sagSearch env ctx).2 ≤ 13392 := by
  unfold sagSearch
  dsimp only
  exact le_trans (Nat.add_le_add (sagSetup_evals_le env ctx)
    (iterC_evals_le _ _ 186 (fun st => sagBisectBody_evals_le env ctx st) 40 _))
    (by norm_num)

theorem buildPositions_evals (env : Env) (ctx : Ctx) (a b c : ℚ) :
    (buildPositionsFromParams env ctx a b c).2 = 2 * (ctx.numPoints + 1) := rfl

theorem createSagBased_evals_le (env : Env) (ctx : Ctx) :
    (createSagBasedC env ctx).2 ≤ 13577 + 2 * (ctx.numPoints + 1) := by
  unfold createSagBasedC
  dsimp only
  split
  · exact le_trans (sagSetup_evals_le env ctx) (by omega)
  · rcases h : (solveP env ctx (sagSearch env ctx).1.cur).1 with _ | p
    · exact le_trans (Nat.add_le_add (sagSearch_evals_le env ctx)
        (solveP_evals_le _ _ _)) (by omega)
    · exact le_trans (Nat.add_le_add (Nat.add_le_add_right (Nat.add_le_add
        (sagSearch_evals_le env ctx) (solveP_evals_le _ _ _)) 1)
        (le_of_eq (buildPositions_evals _ _ _ _ _))) (by omega)

theorem lengthBranch_evals_le (env : Env) (ctx : Ctx) (S : ℚ) :
    (lengthBranchC env ctx S).2 ≤ 38913 + 2 * (ctx.numPoints + 1) := by
  unfold lengthBranchC
  dsimp only
  split
  · rcases h : (solveBForA env ctx (lengthSearch env ctx S).1.cur).1 with _ | b
    · exact le_trans (Nat.add_le_add (Nat.add_le_add (lengthSearch_evals_le env ctx S)
        (solveBForA_evals_le _ _ _)) (createSagBased_evals_le env ctx)) (by omega)
    · exact le_trans (Nat.add_le_add (Nat.add_le_add_right (Nat.add_le_add
        (lengthSearch_evals_le env ctx S) (solveBForA_evals_le _ _ _)) 1)
        (le_of_eq (buildPositions_evals _ _ _ _ _))) (by omega)
  · exact le_trans (Nat.add_le_add (lengthSetup_evals_le env ctx S)
      (createSagBased_evals_le env ctx)) (by omega)

/-! ### Claim theorems -/

section ClaimTheorems

attribute [local semireducible] Rat.mul Rat.inv Rat.add Rat.sub Rat.ofScientific

/-- C1 (amended): in Physics mode, for every non-degenerate span, every
tension > 0 and every linearWeight >= 1e-6, the metadata field `a` equals
`tension / linearWeight` exactly (`a` is computed directly, never searched
for).  The amendment: the source divides by `max(1e-6, linearWeight)`, so
the claim's bound `linearWeight > 0` must be strengthened to
`linearWeight >= 1e-6`. -/
theorem C1_main (env : Env) (s e : Cartesian3) (o : LineOptions)
    (hm : o.mode.getD "physics" = "physics")
    (hnd : ¬ (mkCtx env s e o).L < 0.1)
    (_ht : 0 < (mkCtx env s e o).hTension)
    (hw : 1e-6 ≤ (mkCtx env s e o).linearWeight) :
    Option.map (fun m => Metadata.a m) (createTransmissionLine env s e o).metadata
      = some ((mkCtx env s e o).hTension / (mkCtx env s e o).linearWeight) := by
  unfold createTransmissionLine
  rw [ctl_physics env s e o hnd hm]
  dsimp only
  rw [buildPositions_metadata, physA, max_eq_right hw]

/-- C1 counterexample: with `linearWeight = 1e-7` (which is `> 0`) and
`tension = 1` on a non-degenerate span, the attached `a` is
`1 / 1e-6 = 1e6`, not `tension / linearWeight = 1e7`: the claim as stated
fails for `0 < linearWeight < 1e-6`. -/
theorem C1_counterexample :
    oPhysTiny.mode.getD "physics" = "physics" ∧
    ¬ (mkCtx qEnv s0 e0 oPhysTiny).L < 0.1 ∧
    0 < (mkCtx qEnv s0 e0 oPhysTiny).hTension ∧
    0 < (mkCtx qEnv s0 e0 oPhysTiny).linearWeight ∧
    Option.map (fun m => Metadata.a m) (createTransmissionLine qEnv s0 e0 oPhysTiny).metadata
      ≠ some ((mkCtx qEnv s0 e0 oPhysTiny).hTension / (mkCtx qEnv s0 e0 oPhysTiny).linearWeight) :=
  ⟨by decide, by decide, by decide, by decide, by decide⟩

/-- C1 witness: the amended theorem applied at the default physics options
(`a = 15000 / 30 = 500`). -/
theorem C1_witness :
    (oPhys.mode.getD "physics" = "physics"
      ∧ ¬ (mkCtx qEnv s0 e0 oPhys).L < 0.1
      ∧ 0 < (mkCtx qEnv s0 e0 oPhys).hTension
      ∧ (1e-6 : ℚ) ≤ (mkCtx qEnv s0 e0 oPhys).linearWeight)
    ∧ Option.map (fun m => Metadata.a m) (createTransmissionLine qEnv s0 e0 oPhys).metadata
        = some ((mkCtx qEnv s0 e0 oPhys).hTension / (mkCtx qEnv s0 e0 oPhys).linearWeight) :=
  ⟨⟨by decide, by decide, by decide, by decide⟩,
    C1_main qEnv s0 e0 oPhys (by decide) (by decide) (by decide) (by decide)⟩

/-- C2 (amended): every non-degenerate run returns exactly `numPoints + 1`
points (default 64 + 1), and metadata is attached on the catenary-solving
paths; the parabola fallback, however, returns its `numPoints + 1` points
with no metadata attached.  The amendment: the claim's "metadata attached
on every solving path including the parabola fallback" fails on the
parabola fallback, whose result carries no metadata. -/
theorem C2_main (env : Env) (s e : Cartesian3) (o : LineOptions)
    (hnd : ¬ (mkCtx env s e o).L < 0.1) :
    (createTransmissionLine env s e o).points.length = (mkCtx env s e o).numPoints + 1
    ∧ ((createTransmissionLine env s e o).metadata = none →
        (createTransmissionLine env s e o).points = parabolaPoints (mkCtx env s e o)) := by
  rcases ctl_shape env s e o hnd with h | ⟨a, b, h⟩
  · rw [h]
    exact ⟨parabolaPoints_length _, fun _ => rfl⟩
  · rw [h]
    refine ⟨buildPositions_points_length _ _ _ _ _, fun hmd => ?_⟩
    exfalso
    have hs := buildPositions_metadata_isSome env (mkCtx env s e o) a b
      ((mkCtx env s e o).z0 - a * env.cosh (-b / a))
    rw [hmd] at hs
    exact Bool.false_ne_true hs

/-- C2 counterexample: a non-degenerate sag-mode input (span 1, sag ratio
0) on which bracketing fails, the parabola fallback runs, and the returned
sample set has no metadata, contradicting the claim's "with metadata
attached ... on every solving path including the parabola fallback". -/
theorem C2_counterexample :
    ¬ (mkCtx qEnv s0 e0 oSagZero).L < 0.1 ∧
    (createTransmissionLine qEnv s0 e0 oSagZero).metadata = none :=
  ⟨by decide, by decide⟩

/-- C2 witness: the amended theorem applied at the default physics options
with `numPoints = 2`. -/
theorem C2_witness :
    (¬ (mkCtx qEnv s0 e0 oPhys).L < 0.1)
    ∧ ((createTransmissionLine qEnv s0 e0 oPhys).points.length
        = (mkCtx qEnv s0 e0 oPhys).numPoints + 1
      ∧ ((createTransmissionLine qEnv s0 e0 oPhys).metadata = none →
          (createTransmissionLine qEnv s0 e0 oPhys).points
            = parabolaPoints (mkCtx qEnv s0 e0 oPhys))) :=
  ⟨by decide, C2_main qEnv s0 e0 oPhys (by decide)⟩

/-- C3: a span below the `0.1` threshold short-circuits in every mode: the
result is exactly the two input points, verbatim, with no metadata, and the
only environment call performed is the one computing the span itself (no
curve generation at all). -/
theorem C3_main (env : Env) (s e : Cartesian3) (o : LineOptions)
    (h : (mkCtx env s e o).L < 0.1) :
    createTransmissionLine env s e o = { points := [s, e], metadata := none }
    ∧ createTransmissionLineEvals env s e o = 1 := by
  unfold createTransmissionLine createTransmissionLineEvals
  rw [ctl_degenerate env s e o h]
  exact ⟨rfl, rfl⟩

/-- C3 witness: coincident endpoints give span 0 < 0.1; the two raw points
come back with no metadata, in arbitrary (here: default) mode. -/
theorem C3_witness :
    ((mkCtx qEnv s0 s0 oEmpty).L < 0.1)
    ∧ (createTransmissionLine qEnv s0 s0 oEmpty
        = { points := [s0, s0], metadata := none }
      ∧ createTransmissionLineEvals qEnv s0 s0 oEmpty = 1) :=
  ⟨by decide, C3_main qEnv s0 s0 oEmpty (by decide)⟩

/-- C4: whenever a non-degenerate run attaches metadata (i.e. on every
solved catenary path in every mode), the sampled curve was built from
parameters `(a, b, c)` in which `c` was computed last from the pass-through
identity, so `a * cosh(-b/a) + c = z0` holds exactly. -/
theorem C4_main (env : Env) (s e : Cartesian3) (o : LineOptions)
    (hnd : ¬ (mkCtx env s e o).L < 0.1)
    (hmd : (createTransmissionLine env s e o).metadata.isSome = true) :
    ∃ a b c, createTransmissionLine env s e o
        = (buildPositionsFromParams env (mkCtx env s e o) a b c).1
      ∧ c = (mkCtx env s e o).z0 - a * env.cosh (-b / a)
      ∧ a * env.cosh (-b / a) + c = (mkCtx env s e o).z0 := by
  rcases ctl_shape env s e o hnd with h | ⟨a, b, h⟩
  · rw [h] at hmd
    exact absurd hmd (by simp)
  · exact ⟨a, b, (mkCtx env s e o).z0 - a * env.cosh (-b / a), h, rfl, by ring⟩

/-- C4 witness: the theorem applied at the default physics options. -/
theorem C4_witness :
    (¬ (mkCtx qEnv s0 e0 oPhys).L < 0.1
      ∧ (createTransmissionLine qEnv s0 e0 oPhys).metadata.isSome = true)
    ∧ ∃ a b c, createTransmissionLine qEnv s0 e0 oPhys
        = (buildPositionsFromParams qEnv (mkCtx qEnv s0 e0 oPhys) a b c).1
      ∧ c = (mkCtx qEnv s0 e0 oPhys).z0 - a * qEnv.cosh (-b / a)
      ∧ a * qEnv.cosh (-b / a) + c = (mkCtx qEnv s0 e0 oPhys).z0 :=
  ⟨⟨by decide, by decide⟩, C4_main qEnv s0 e0 oPhys (by decide) (by decide)⟩

/-- C5: in Length mode with a finite positive requested length, the target
`S` handed to the solver is `max(request, chordLen + 1e-6)`, hence always
at least the chord length plus the epsilon; a request below that is clamped
to exactly `chordLen + 1e-6`; and the run simply returns the (total)
length-branch result, so no divergence or exception is possible. -/
theorem C5_main (env : Env) (s e : Cartesian3) (o : LineOptions) (v : ℚ)
    (hm : o.mode.getD "physics" = "length")
    (hv : o.lengthMeters = some v)
    (hpos : 0 < v)
    (hnd : ¬ (mkCtx env s e o).L < 0.1) :
    (mkCtx env s e o).chordLen + 1e-6 ≤ targetS (mkCtx env s e o) v
    ∧ (v < (mkCtx env s e o).chordLen + 1e-6 →
        targetS (mkCtx env s e o) v = (mkCtx env s e o).chordLen + 1e-6)
    ∧ createTransmissionLine env s e o
        = (lengthBranchC env (mkCtx env s e o) (targetS (mkCtx env s e o) v)).1 := by
  refine ⟨le_max_right _ _, fun hlt => max_eq_right hlt.le, ?_⟩
  have hmp : o.mode.getD "physics" ≠ "physics" := by
    rw [hm]
    decide
  have hvB : lengthValidB (o.mode.getD "physics") o.lengthMeters = true := by
    rw [hm, hv]
    simp [lengthValidB, hpos]
  unfold createTransmissionLine
  rw [ctl_length env s e o hnd hmp hvB]
  dsimp only
  rw [hv]
  rfl

/-- C5 witness: requesting length 1 on a chord of length 1 (shorter than
chord + epsilon) clamps the target to `chordLen + 1e-6`. -/
theorem C5_witness :
    (oLen.mode.getD "physics" = "length"
      ∧ oLen.lengthMeters = some 1
      ∧ (0 : ℚ) < 1
      ∧ ¬ (mkCtx qEnv s0 e0 oLen).L < 0.1)
    ∧ ((mkCtx qEnv s0 e0 oLen).chordLen + 1e-6 ≤ targetS (mkCtx qEnv s0 e0 oLen) 1
      ∧ ((1 : ℚ) < (mkCtx qEnv s0 e0 oLen).chordLen + 1e-6 →
          targetS (mkCtx qEnv s0 e0 oLen) 1 = (mkCtx qEnv s0 e0 oLen).chordLen + 1e-6)
      ∧ createTransmissionLine qEnv s0 e0 oLen
          = (lengthBranchC qEnv (mkCtx qEnv s0 e0 oLen)
              (targetS (mkCtx qEnv s0 e0 oLen) 1)).1) :=
  ⟨⟨by decide, by decide, by decide, by decide⟩,
    C5_main qEnv s0 e0 oLen 1 (by decide) (by decide) (by decide) (by decide)⟩

/-- C6: the only fallback transitions.  (i) Physics mode always returns its
own sampled catenary built from its directly-computed `a` and the searched
`b`, and `b` is `0` exactly when the search could not bracket (it never
invokes another mode's strategy).  (ii) The length branch returns the
sag-based result exactly when its outer bracket fails or its final inner
solve fails, and otherwise its own sampled catenary.  (iii) The sag-based
solver returns the closed-form parabola exactly when its bracketing fails
or its final inner solve fails, and otherwise its own sampled catenary. -/
theorem C6_main (env : Env) (s e : Cartesian3) (o : LineOptions)
    (hnd : ¬ (mkCtx env s e o).L < 0.1) :
    let ctx := mkCtx env s e o
    (o.mode.getD "physics" = "physics" →
      createTransmissionLine env s e o
        = (buildPositionsFromParams env ctx (physA ctx)
            (solveBPhys env ctx (physA ctx)).1
            (ctx.z0 - physA ctx *
              env.cosh (-(solveBPhys env ctx (physA ctx)).1 / physA ctx))).1
      ∧ ((solveBForA env ctx (physA ctx)).1 = none →
          (solveBPhys env ctx (physA ctx)).1 = 0))
    ∧ (∀ S,
        ((hasBracket ((lengthSetup env ctx S).1).fLo ((lengthSetup env ctx S).1).fHi = false
            ∨ (solveBForA env ctx (lengthFinalA env ctx S)).1 = none) →
          (lengthBranchC env ctx S).1 = (createSagBasedC env ctx).1)
        ∧ (∀ b, hasBracket ((lengthSetup env ctx S).1).fLo ((lengthSetup env ctx S).1).fHi = true →
            (solveBForA env ctx (lengthFinalA env ctx S)).1 = some b →
            (lengthBranchC env ctx S).1
              = (buildPositionsFromParams env ctx (lengthFinalA env ctx S) b
                  (ctx.z0 - lengthFinalA env ctx S *
                    env.cosh (-b / lengthFinalA env ctx S))).1))
    ∧ ((sagBracketFail env ctx = true
          ∨ (solveP env ctx (sagFinalA env ctx)).1 = none) →
        (createSagBasedC env ctx).1 = { points := parabolaPoints ctx, metadata := none })
    ∧ (∀ p, sagBracketFail env ctx = false →
        (solveP env ctx (sagFinalA env ctx)).1 = some p →
        (createSagBasedC env ctx).1
          = (buildPositionsFromParams env ctx (sagFinalA env ctx) p
              (ctx.z0 - sagFinalA env ctx * env.cosh (-p / sagFinalA env ctx))).1) := by
  intro ctx
  refine ⟨?_, ?_, ?_, ?_⟩
  · intro hm
    constructor
    · unfold createTransmissionLine
      rw [ctl_physics env s e o hnd hm]
    · intro hnone
      unfold solveBPhys
      dsimp only
      rw [hnone]
      rfl
  · intro S
    constructor
    · intro hor
      by_cases hbr : hasBracket ((lengthSetup env ctx S).1).fLo ((lengthSetup env ctx S).1).fHi = true
      · rcases hor with hor | hor
        · rw [hor] at hbr
          exact absurd hbr (by decide)
        · unfold lengthBranchC
          dsimp only
          rw [if_pos hbr]
          unfold lengthFinalA at hor
          rw [hor]
      · unfold lengthBranchC
        dsimp only
        rw [if_neg hbr]
    · intro b hbr hsome
      unfold lengthBranchC
      dsimp only
      rw [if_pos hbr]
      unfold lengthFinalA at hsome
      rw [hsome]
      rfl
  · intro hor
    by_cases hf : sagBracketFail env ctx = true
    · unfold createSagBasedC
      dsimp only
      rw [if_pos hf]
    · rcases hor with hor | hor
      · exact absurd hor hf
      · unfold createSagBasedC
        dsimp only
        rw [if_neg hf]
        unfold sagFinalA at hor
        rw [hor]
  · intro p hf hsome
    unfold createSagBasedC
    dsimp only
    rw [if_neg (by rw [hf]; decide)]
    unfold sagFinalA at hsome
    rw [hsome]
    rfl

/-- C6 witness: the physics conjunct of the theorem applied at the default
physics options. -/
theorem C6_witness :
    (¬ (mkCtx qEnv s0 e0 oPhys).L < 0.1 ∧ oPhys.mode.getD "physics" = "physics")
    ∧ createTransmissionLine qEnv s0 e0 oPhys
        = (buildPositionsFromParams qEnv (mkCtx qEnv s0 e0 oPhys)
            (physA (mkCtx qEnv s0 e0 oPhys))
            (solveBPhys qEnv (mkCtx qEnv s0 e0 oPhys) (physA (mkCtx qEnv s0 e0 oPhys))).1
            ((mkCtx qEnv s0 e0 oPhys).z0 - physA (mkCtx qEnv s0 e0 oPhys) *
              qEnv.cosh (-(solveBPhys qEnv (mkCtx qEnv s0 e0 oPhys)
                  (physA (mkCtx qEnv s0 e0 oPhys))).1 /
                physA (mkCtx qEnv s0 e0 oPhys)))).1 :=
  ⟨⟨by decide, by decide⟩,
    ((C6_main qEnv s0 e0 oPhys (by decide)).1 (by decide)).1⟩

/-- C7 (amended): for every non-degenerate input with at least one sampling
interval, in every mode and on every solving path, the first returned point
equals the input start exactly; on the parabola fallback (the only
metadata-less path) the last returned point equals the input end exactly;
and on every solved catenary path the last point agrees with the end in
both horizontal coordinates while its height misses the end height by
exactly the residual of the `b`-equation at the returned parameters.  The
amendment: the original blanket `1e-3` bound on the last point is false —
when the `b`-search cannot bracket, Physics mode defaults `b` to `0` and
the last point can be arbitrarily far from the end. -/
theorem C7_main (env : Env) (s e : Cartesian3) (o : LineOptions)
    (hnd : ¬ (mkCtx env s e o).L < 0.1)
    (hN : (mkCtx env s e o).numPoints ≠ 0) :
    (createTransmissionLine env s e o).points.head? = some s
    ∧ ((createTransmissionLine env s e o).metadata = none →
        (createTransmissionLine env s e o).points.getLast? = some e)
    ∧ (∀ a b, createTransmissionLine env s e o
          = (buildPositionsFromParams env (mkCtx env s e o) a b
              ((mkCtx env s e o).z0 - a * env.cosh (-b / a))).1 →
        (createTransmissionLine env s e o).points.getLast?
          = some ⟨e.x, e.y, e.z + (fbB env (mkCtx env s e o) a b).1⟩) := by
  have hL0 : (mkCtx env s e o).L ≠ 0 := by
    intro h0
    exact hnd (by rw [h0]; norm_num)
  have hx : (mkCtx env s e o).p0.x + (mkCtx env s e o).dirX * (mkCtx env s e o).L = e.x := by
    show s.x + (e.x - s.x) / (mkCtx env s e o).L * (mkCtx env s e o).L = e.x
    rw [div_mul_cancel₀ _ hL0]
    ring
  have hy : (mkCtx env s e o).p0.y + (mkCtx env s e o).dirY * (mkCtx env s e o).L = e.y := by
    show s.y + (e.y - s.y) / (mkCtx env s e o).L * (mkCtx env s e o).L = e.y
    rw [div_mul_cancel₀ _ hL0]
    ring
  refine ⟨?_, ?_, ?_⟩
  · rcases ctl_shape env s e o hnd with h | ⟨a, b, h⟩
    · rw [h]
      show (parabolaPoints (mkCtx env s e o)).head? = some s
      rw [parabolaPoints_head]
      rfl
    · rw [h, buildPositions_head]
      have hz : a * env.cosh (-b / a)
          + ((mkCtx env s e o).z0 - a * env.cosh (-b / a)) = s.z := by
        show a * env.cosh (-b / a) + (s.z - a * env.cosh (-b / a)) = s.z
        ring
      rw [hz]
      rfl
  · intro hmd
    rcases ctl_shape env s e o hnd with h | ⟨a, b, h⟩
    · rw [h]
      show (parabolaPoints (mkCtx env s e o)).getLast? = some e
      rw [parabolaPoints_getLast _ hN]
      have hz : (mkCtx env s e o).z0 + (mkCtx env s e o).dz = e.z := by
        show s.z + (e.z - s.z) = e.z
        ring
      rw [hx, hy, hz]
    · exfalso
      have hs := buildPositions_metadata_isSome env (mkCtx env s e o) a b
        ((mkCtx env s e o).z0 - a * env.cosh (-b / a))
      rw [h] at hmd
      rw [hmd] at hs
      exact Bool.false_ne_true hs
  · intro a b heq
    rw [heq, buildPositions_getLast _ _ _ _ _ hN]
    have hz : a * env.cosh (((mkCtx env s e o).L - b) / a)
        + ((mkCtx env s e o).z0 - a * env.cosh (-b / a))
        = e.z + (fbB env (mkCtx env s e o) a b).1 := by
      show a * env.cosh (((mkCtx env s e o).L - b) / a) + (s.z - a * env.cosh (-b / a))
        = e.z + (a * (env.cosh (((mkCtx env s e o).L - b) / a) - env.cosh (-b / a))
            - (e.z - s.z))
      ring
    rw [hx, hy, hz]

/-- C7 counterexample: physics mode with `hTension = 1e200` and
`linearWeight = 1` over the unit span from the origin to `(1, 0, 1)`.  The
root of the `b`-equation lies near `-1e200`, outside the expansion's reach,
so bracketing fails in exact arithmetic just as with the real library
functions (where every probed `cosh` evaluates to exactly 1); `b` defaults
to `0` and the last sampled point sits at height about `0`, missing the end
height `1` by far more than the claimed `1e-3` tolerance. -/
theorem C7_counterexample :
    ¬ (mkCtx qEnv s0 e7 oPhys200).L < 0.1 ∧
    (mkCtx qEnv s0 e7 oPhys200).numPoints ≠ 0 ∧
    Option.map (fun p => decide (|Cartesian3.z p - Cartesian3.z e7| < 1e-3))
        (createTransmissionLine qEnv s0 e7 oPhys200).points.getLast? = some false :=
  ⟨by decide, by decide, by decide⟩

/-- C7 witness: the amended theorem applied at the default physics options
on the level unit span. -/
theorem C7_witness :
    (¬ (mkCtx qEnv s0 e0 oPhys).L < 0.1 ∧ (mkCtx qEnv s0 e0 oPhys).numPoints ≠ 0)
    ∧ ((createTransmissionLine qEnv s0 e0 oPhys).points.head? = some s0
      ∧ ((createTransmissionLine qEnv s0 e0 oPhys).metadata = none →
          (createTransmissionLine qEnv s0 e0 oPhys).points.getLast? = some e0)
      ∧ (∀ a b, createTransmissionLine qEnv s0 e0 oPhys
            = (buildPositionsFromParams qEnv (mkCtx qEnv s0 e0 oPhys) a b
                ((mkCtx qEnv s0 e0 oPhys).z0 - a * qEnv.cosh (-b / a))).1 →
          (createTransmissionLine qEnv s0 e0 oPhys).points.getLast?
            = some ⟨e0.x, e0.y, e0.z + (fbB qEnv (mkCtx qEnv s0 e0 oPhys) a b).1⟩)) :=
  ⟨⟨by decide, by decide⟩, C7_main qEnv s0 e0 oPhys (by decide) (by decide)⟩

/-- C8: the solver terminates on every input with a bounded amount of work:
since every root-finding loop (bracket expansion and bisection, in all
three modes and both nesting levels) has a fixed iteration cap, the number
of environment calls (square root, cosh, sinh evaluations) of a whole run
is bounded by a closed expression in the sample resolution alone; in
particular the model is a total function. -/
theorem C8_main (env : Env) (s e : Cartesian3) (o : LineOptions) :
    createTransmissionLineEvals env s e o
      ≤ 40000 + 2 * ((mkCtx env s e o).numPoints + 1) := by
  unfold createTransmissionLineEvals createTransmissionLineC
  dsimp only
  split
  · show (1 : ℕ) ≤ 40000 + 2 * ((mkCtx env s e o).numPoints + 1)
    omega
  · split
    · exact le_trans (Nat.add_le_add (Nat.add_le_add_right
        (Nat.add_le_add_left (solveBPhys_evals_le _ _ _) 2) 1)
        (le_of_eq (buildPositions_evals _ _ _ _ _))) (by omega)
    · split
      · exact le_trans (Nat.add_le_add_left (lengthBranch_evals_le _ _ _) 2) (by omega)
      · exact le_trans (Nat.add_le_add_left (createSagBased_evals_le _ _) 2) (by omega)

/-- C9: the solver is a pure function of its inputs in the embedding (the
source reads only its arguments and locals and allocates fresh arrays, so
the model has no state component at all): two calls with identical inputs
give identical outputs and identical work. -/
theorem C9_main (env : Env) (s e : Cartesian3) (o : LineOptions) :
    createTransmissionLine env s e o = createTransmissionLine env s e o
    ∧ createTransmissionLineEvals env s e o = createTransmissionLineEvals env s e o :=
  ⟨rfl, rfl⟩

/-- C10: with mode `"length"` but an absent or non-positive target length
(and likewise for any unrecognized mode tag), the call is not an error: the
run returns exactly the sag-mode result for the same profile. -/
theorem C10_main (env : Env) (s e : Cartesian3) (o : LineOptions)
    (hm : o.mode.getD "physics" ≠ "physics")
    (hv : lengthValidB (o.mode.getD "physics") o.lengthMeters = false) :
    createTransmissionLine env s e o
      = createTransmissionLine env s e { o with mode := some "sag", lengthMeters := none } := by
  have hctx : mkCtx env s e { o with mode := some "sag", lengthMeters := none }
      = mkCtx env s e o := rfl
  by_cases hd : (mkCtx env s e o).L < 0.1
  · unfold createTransmissionLine
    rw [ctl_degenerate env s e o hd, ctl_degenerate env s e _ (by rw [hctx]; exact hd)]
  · unfold createTransmissionLine
    rw [ctl_sag env s e o hd hm hv,
      ctl_sag env s e _ (by rw [hctx]; exact hd)
        (by show ("sag" : String) ≠ "physics"; decide)
        (by show lengthValidB "sag" none = false; decide)]
    dsimp only
    rw [hctx]

/-- C10 witness: mode `"length"` with no target length returns the sag-mode
result for the same profile. -/
theorem C10_witness :
    (oLenMissing.mode.getD "physics" ≠ "physics"
      ∧ lengthValidB (oLenMissing.mode.getD "physics") oLenMissing.lengthMeters = false)
    ∧ createTransmissionLine qEnv s0 e0 oLenMissing
        = createTransmissionLine qEnv s0 e0
            { oLenMissing with mode := some "sag", lengthMeters := none } :=
  ⟨⟨by decide, by decide⟩, C10_main qEnv s0 e0 oLenMissing (by decide) (by decide)⟩

end ClaimTheorems

end CatenaryModel
